import Mathlib

/-!
Shallow embedding of the detray `single_type_navigator`.

The implementation header `tools/single_type_navigator.hpp` is absent from the
source tree; only its unit test `tests/common/tools_single_type_navigator.inl`
is present.  The navigator is therefore modelled from the specification
(spec.md sections 3, 4 and 7), with the unit test pinning the observable
behaviour: trust level after a bulk re-scan that skips a coincident candidate,
cursor placement after sorting, and the volume-switch/exit transitions.
Scalars are modelled as rationals, surface and volume identifiers as naturals.
-/

namespace detray

/-- Modelled from the spec: the invalid index sentinel (`dindex_invalid` in the
missing header), the maximum unsigned value, marking an invalid volume or
surface identifier; as a next-volume link it means "outside the geometry
world". -/
def dindex_invalid : Nat := 18446744073709551615

namespace single_type_navigator

/-- Modelled from the spec: the closed set of navigation states of the missing
`single_type_navigator` state machine: `unknown` (initial), `towards_object`,
`on_object`, `on_target` (left the world) and `abort` (terminal failure). -/
inductive navigation_status where
  | e_on_target
  | e_abort
  | e_unknown
  | e_towards_object
  | e_on_object
deriving DecidableEq

/-- Modelled from the spec: trust levels from least to most reusable:
`no_trust`, `fair_trust`, `high_trust`, `full_trust`. -/
inductive navigation_trust_level where
  | e_no_trust
  | e_fair_trust
  | e_high_trust
  | e_full_trust
deriving DecidableEq

/-- Modelled from the spec: the result of the external intersection primitive
for one surface: signed path length, inside/outside classification, and the
identifier of the volume reached when the surface is crossed. -/
structure intersection where
  path : Rat
  inside : Bool
  link : Nat
deriving DecidableEq

/-- Modelled from the spec: an intersection candidate stored in the kernel:
target surface identifier, signed path length, classification and the
next-volume link. -/
structure candidate where
  index : Nat
  path : Rat
  inside : Bool
  link : Nat
deriving DecidableEq

/-- Default candidate value used only as the `getD` fallback. -/
def cand_default : candidate :=
  { index := dindex_invalid, path := 0, inside := false, link := dindex_invalid }

/-- Modelled from the spec: candidate ordering, path length ascending with ties
broken by surface identifier ascending (for determinism). -/
def cand_le (a b : candidate) : Prop :=
  a.path < b.path ∨ (a.path = b.path ∧ a.index ≤ b.index)

instance : DecidableRel cand_le := fun a b =>
  inferInstanceAs (Decidable (a.path < b.path ∨ (a.path = b.path ∧ a.index ≤ b.index)))

instance : IsTrans candidate cand_le := by
  constructor
  intro a b c hab hbc
  rcases hab with h1 | h1 <;> rcases hbc with h2 | h2
  · exact Or.inl (lt_trans h1 h2)
  · exact Or.inl (by rw [← h2.1]; exact h1)
  · exact Or.inl (by rw [h1.1]; exact h2)
  · exact Or.inr ⟨h1.1.trans h2.1, le_trans h1.2 h2.2⟩

instance : IsTotal candidate cand_le := by
  constructor
  intro a b
  rcases lt_trichotomy a.path b.path with h | h | h
  · exact Or.inl (Or.inl h)
  · rcases Nat.le_total a.index b.index with hi | hi
    · exact Or.inl (Or.inr ⟨h, hi⟩)
    · exact Or.inr (Or.inr ⟨h.symm, hi⟩)
  · exact Or.inr (Or.inl h)

/-- Modelled from the spec: the candidate kernel, an ordered candidate sequence
plus the index cursor to the next candidate; a cursor equal to the length of
the sequence means the kernel is exhausted. -/
structure navigation_kernel where
  candidates : List candidate
  next : Nat
deriving DecidableEq

/-- Exhaustion is detected structurally: the cursor is at the end. -/
def navigation_kernel.exhausted (k : navigation_kernel) : Bool :=
  k.candidates.length ≤ k.next

/-- Modelled from the spec: the navigation state passed between successive
status/target calls: current volume, candidate kernel, navigation status,
trust level, occupied surface index, distance to next, on-object tolerance. -/
structure state where
  volume : Nat
  kernel : navigation_kernel
  status : navigation_status
  trust_level : navigation_trust_level
  on_object : Nat
  distance : Rat
  tolerance : Rat
deriving DecidableEq

/-- Modelled from the spec: a freshly constructed state: invalid volume, empty
kernel, status unknown, no trust, no occupied surface. -/
def initial_state : state :=
  { volume := dindex_invalid
    kernel := { candidates := [], next := 0 }
    status := navigation_status.e_unknown
    trust_level := navigation_trust_level.e_no_trust
    on_object := dindex_invalid
    distance := 0
    tolerance := 1 / 10000 }

/-- Modelled from the spec: set the volume the navigation starts in. -/
def state.set_initial_volume (s : state) (v : Nat) : state :=
  { s with volume := v }

/-- Modelled from the spec: clear the kernel: drop all candidates, reset the
cursor to the end, clear the occupied-surface marker. -/
def state.clear_kernel (s : state) : state :=
  { s with kernel := { candidates := [], next := 0 }, on_object := dindex_invalid }

/-- The candidate the cursor points at, if the kernel is not exhausted. -/
def state.current (s : state) : Option candidate :=
  s.kernel.candidates[s.kernel.next]?

/-- Modelled from the spec: the read-only collaborators consulted during one
status/target call: per volume the contiguous surface index range, the
intersection primitive for the caller's current trajectory, and the
trajectory's overstep tolerance. -/
structure nav_environment where
  surface_range : Nat → Nat × Nat
  intersect : Nat → intersection
  overstep_tolerance : Rat

/-- The surface identifiers of a volume, enumerated from its index range. -/
def nav_environment.surfaces (env : nav_environment) (v : Nat) : List Nat :=
  List.range' (env.surface_range v).1 ((env.surface_range v).2 - (env.surface_range v).1)

/-- Modelled from the spec: the `no_trust` bulk scan: intersect the trajectory
against every surface in the current volume's index range and keep only
candidates with path length at least the overstep tolerance, classification
inside, and distinct from the currently occupied surface. -/
def volume_scan (env : nav_environment) (vol occupied : Nat) : List candidate :=
  (env.surfaces vol).filterMap fun obj =>
    let sfi := env.intersect obj
    if env.overstep_tolerance ≤ sfi.path ∧ sfi.inside = true ∧ obj ≠ occupied then
      some { index := obj, path := sfi.path, inside := sfi.inside, link := sfi.link }
    else none

/-- Modelled from the spec: the sort contract of the kernel: after bulk
(re-)population the candidates are sorted ascending (path, then surface id) and
the cursor is set to the first candidate at or beyond the on-object tolerance;
a skipped coincident candidate is recorded as occupied and the trust is left
at high (the estimate is re-evaluated next pass, as the unit test pins down),
otherwise the trust becomes full. -/
def set_next (s : state) (cs : List candidate) : state :=
  if cs = [] then { s with kernel := { candidates := [], next := 0 } } else
  let sorted := List.insertionSort cand_le cs
  let k := sorted.findIdx fun c => decide (s.tolerance ≤ c.path)
  { s with
    kernel := { candidates := sorted, next := k }
    status := navigation_status.e_towards_object
    trust_level :=
      if k = 0 then navigation_trust_level.e_full_trust
      else navigation_trust_level.e_high_trust
    on_object := if k = 0 then dindex_invalid else (sorted.getD (k - 1) cand_default).index
    distance := (sorted.getD k cand_default).path }

/-- Result of the high-trust loop: the refreshed tail of the candidate
sequence, the number of candidates the cursor advanced past, and the valid
candidate found, if any. -/
structure scan_result where
  refreshed : List candidate
  advanced : Nat
  found : Option candidate
deriving DecidableEq

/-- Modelled from the spec: the high-trust loop: re-intersect only the cursor
candidate; while it no longer satisfies inside-and-not-occupied, advance the
cursor and retry against the next entry, until a valid candidate is found or
the kernel is exhausted. -/
def high_trust_scan (env : nav_environment) (occupied : Nat) :
    List candidate → scan_result
  | [] => { refreshed := [], advanced := 0, found := none }
  | c :: rest =>
    let sfi := env.intersect c.index
    let c2 : candidate := { index := c.index, path := sfi.path, inside := sfi.inside, link := sfi.link }
    if sfi.inside = true ∧ c.index ≠ occupied then
      { refreshed := c2 :: rest, advanced := 0, found := some c2 }
    else
      let r := high_trust_scan env occupied rest
      { refreshed := c2 :: r.refreshed, advanced := r.advanced + 1, found := r.found }

/-- Modelled from the spec: the outcome of the high-trust update: exhaustion
leaves the state for the caller to recover; a valid candidate within the
on-object tolerance is marked occupied with status on_object and trust kept
high; otherwise status towards_object and trust raised to full. -/
def apply_high (s : state) (k2 : navigation_kernel) : Option candidate → state
  | none => { s with kernel := k2 }
  | some c =>
    if |c.path| < s.tolerance then
      { s with
        kernel := k2
        status := navigation_status.e_on_object
        on_object := c.index
        distance := c.path }
    else
      { s with
        kernel := k2
        status := navigation_status.e_towards_object
        trust_level := navigation_trust_level.e_full_trust
        distance := c.path }

/-- Modelled from the spec: the trust-parameterized kernel update shared by the
status and target operations. -/
def update_kernel (env : nav_environment) (s : state) : state :=
  if s.trust_level = navigation_trust_level.e_full_trust then s
  else if s.trust_level = navigation_trust_level.e_no_trust then
    set_next s (volume_scan env s.volume s.on_object)
  else if s.trust_level = navigation_trust_level.e_fair_trust then
    set_next s (s.kernel.candidates.map fun c =>
      let sfi := env.intersect c.index
      { index := c.index, path := sfi.path, inside := sfi.inside, link := sfi.link })
  else
    let r := high_trust_scan env s.on_object (s.kernel.candidates.drop s.kernel.next)
    apply_high s
      { candidates := s.kernel.candidates.take s.kernel.next ++ r.refreshed
        next := s.kernel.next + r.advanced }
      r.found

/-- Modelled from the spec: the volume-switch check run after every kernel
update: if the status is on_object and the current candidate's next-volume
link differs from the current volume, switch the volume to the link, clear the
kernel and drop trust to no_trust; if the new volume is the exit sentinel,
transition to on_target with trust forced to full. -/
def check_volume_switch (s : state) : state :=
  match s.current with
  | none => s
  | some c =>
    if s.status = navigation_status.e_on_object ∧ c.link ≠ s.volume then
      let s2 := { state.clear_kernel { s with volume := c.link } with
                  trust_level := navigation_trust_level.e_no_trust }
      if s2.volume = dindex_invalid then
        { s2 with
          status := navigation_status.e_on_target
          trust_level := navigation_trust_level.e_full_trust }
      else s2
    else s

/-- Modelled from the spec: the tail shared by status and target after the
kernel update: abort (heartbeat false) when the update left no candidates,
otherwise run the volume-switch check and keep the heartbeat. -/
def post_update (s : state) : Bool × state :=
  if s.kernel.candidates = [] then
    (false, { s with status := navigation_status.e_abort })
  else (true, check_volume_switch s)

/-- Modelled from the spec: the public status operation: (re)derive the kernel
for the current volume given the trust level, then abort check and
volume-switch check; returns the heartbeat with the new state. -/
def status (env : nav_environment) (s : state) : Bool × state :=
  post_update (update_kernel env s)

/-- Modelled from the spec: the public target operation: a no-op at full trust;
otherwise an exhausted kernel is cleared with trust forced to no_trust, and
then the same kernel update and volume-switch check as status. -/
def target (env : nav_environment) (s : state) : Bool × state :=
  if s.trust_level = navigation_trust_level.e_full_trust then (true, s)
  else
    let s0 :=
      if s.kernel.exhausted then
        { s.clear_kernel with trust_level := navigation_trust_level.e_no_trust }
      else s
    post_update (update_kernel env s0)

/-- The kernel invariant asserted by the spec: every stored candidate passed
the acceptance filter (path length at least the overstep tolerance, inside
classification) and the entries at or after the cursor are sorted ascending by
path length with ties broken by surface identifier. -/
def kernel_invariant (ot : Rat) (s : state) : Prop :=
  (∀ c ∈ s.kernel.candidates, ot ≤ c.path ∧ c.inside = true) ∧
  List.Sorted cand_le (s.kernel.candidates.drop s.kernel.next)

/-! Concrete fixtures used by witnesses and counterexamples.  They mirror the
geometry situations exercised by the unit test: a state sitting on a portal
whose link leads to another volume (or out of the world), and a freshly
switched volume that is re-scanned from scratch. -/

/-- A trajectory/geometry snapshot where surface 5 of volume 3 is under the
trajectory (path 0) and links to volume 7. -/
def env_portal : nav_environment :=
  { surface_range := fun v => if v = 3 then (5, 6) else (0, 0)
    intersect := fun i =>
      if i = 5 then { path := 0, inside := true, link := 7 }
      else { path := 0, inside := false, link := 0 }
    overstep_tolerance := -1 }

/-- A trajectory/geometry snapshot where surface 5 of volume 3 is under the
trajectory and links out of the geometry world. -/
def env_exit : nav_environment :=
  { surface_range := fun v => if v = 3 then (5, 6) else (0, 0)
    intersect := fun i =>
      if i = 5 then { path := 0, inside := true, link := dindex_invalid }
      else { path := 0, inside := false, link := 0 }
    overstep_tolerance := -1 }

/-- A high-trust state in volume 3 heading to surface 5 with a stale distance
estimate of 27. -/
def state_towards : state :=
  { volume := 3
    kernel := { candidates := [{ index := 5, path := 27, inside := true, link := 7 }], next := 0 }
    status := navigation_status.e_towards_object
    trust_level := navigation_trust_level.e_high_trust
    on_object := dindex_invalid
    distance := 27
    tolerance := 1 }

/-- A snapshot of volume 1 holding the portal the trajectory sits on
(surface 10, path 0) and a module surface ahead (surface 11, path 7). -/
def env_rescan : nav_environment :=
  { surface_range := fun v => if v = 1 then (10, 12) else (0, 0)
    intersect := fun i =>
      if i = 10 then { path := 0, inside := true, link := 0 }
      else if i = 11 then { path := 7, inside := true, link := 2 }
      else { path := 0, inside := false, link := 0 }
    overstep_tolerance := -1 }

/-- The state right after a volume switch into volume 1: kernel cleared,
no trust, still flagged on the object that was crossed. -/
def state_switched : state :=
  { volume := 1
    kernel := { candidates := [], next := 0 }
    status := navigation_status.e_on_object
    trust_level := navigation_trust_level.e_no_trust
    on_object := dindex_invalid
    distance := 0
    tolerance := 1 }

/-- A terminal exit-like state: full trust with an empty (hence exhausted)
kernel in a volume that still owns a valid surface in `env_rescan`. -/
def state_exit_like : state :=
  { volume := 1
    kernel := { candidates := [], next := 0 }
    status := navigation_status.e_on_target
    trust_level := navigation_trust_level.e_full_trust
    on_object := dindex_invalid
    distance := 0
    tolerance := 1 }

/-- A fair-trust state whose stored candidate (surface 40) was inside when it
was appended. -/
def state_fair : state :=
  { volume := 0
    kernel := { candidates := [{ index := 40, path := 5, inside := true, link := 1 }], next := 0 }
    status := navigation_status.e_towards_object
    trust_level := navigation_trust_level.e_fair_trust
    on_object := dindex_invalid
    distance := 5
    tolerance := 1 }

/-- A snapshot in which surface 40 is re-intersected as outside (the
trajectory moved past its bounds). -/
def env_outside : nav_environment :=
  { surface_range := fun _ => (0, 0)
    intersect := fun i =>
      if i = 40 then { path := 5, inside := false, link := 1 }
      else { path := 0, inside := false, link := 0 }
    overstep_tolerance := -1 }

/-- A no-trust state used to exercise an exhaustion recovery in `env_rescan`. -/
def state_stale : state :=
  { volume := 1
    kernel := { candidates := [{ index := 9, path := 3, inside := true, link := 1 }], next := 1 }
    status := navigation_status.e_towards_object
    trust_level := navigation_trust_level.e_high_trust
    on_object := dindex_invalid
    distance := 3
    tolerance := 1 }

/-- A second state sharing volume and occupied surface with `state_switched`
but nothing else, used for the determinism claim. -/
def state_switched_variant : state :=
  { volume := 1
    kernel := { candidates := [{ index := 77, path := 1, inside := true, link := 4 }], next := 1 }
    status := navigation_status.e_unknown
    trust_level := navigation_trust_level.e_no_trust
    on_object := dindex_invalid
    distance := 42
    tolerance := 3 }

end single_type_navigator

end detray

namespace detray.single_type_navigator

/-! Helper lemmas shared by the claim theorems. -/

theorem update_kernel_no_trust (env : nav_environment) (s : state)
    (h : s.trust_level = navigation_trust_level.e_no_trust) :
    update_kernel env s = set_next s (volume_scan env s.volume s.on_object) := by
  simp [update_kernel, h]

theorem update_kernel_fair_trust (env : nav_environment) (s : state)
    (h : s.trust_level = navigation_trust_level.e_fair_trust) :
    update_kernel env s = set_next s (s.kernel.candidates.map fun c =>
      let sfi := env.intersect c.index
      { index := c.index, path := sfi.path, inside := sfi.inside, link := sfi.link }) := by
  simp [update_kernel, h]

theorem update_kernel_high_trust (env : nav_environment) (s : state)
    (h : s.trust_level = navigation_trust_level.e_high_trust) :
    update_kernel env s =
      apply_high s
        { candidates := s.kernel.candidates.take s.kernel.next ++
            (high_trust_scan env s.on_object (s.kernel.candidates.drop s.kernel.next)).refreshed
          next := s.kernel.next +
            (high_trust_scan env s.on_object (s.kernel.candidates.drop s.kernel.next)).advanced }
        (high_trust_scan env s.on_object (s.kernel.candidates.drop s.kernel.next)).found := by
  simp [update_kernel, h]

theorem set_next_candidates (s : state) (cs : List candidate) :
    (set_next s cs).kernel.candidates =
      if cs = [] then [] else List.insertionSort cand_le cs := by
  by_cases hcs : cs = [] <;> simp [set_next, hcs]

theorem target_eq_status (env : nav_environment) (s : state)
    (h1 : s.trust_level ≠ navigation_trust_level.e_full_trust)
    (h2 : s.kernel.exhausted = false) :
    target env s = status env s := by
  simp [target, status, h1, h2]

/-- C10: a freshly constructed navigation state on which only the initial
volume has been set has an empty candidate kernel (size 0), trust level
no_trust, navigation status unknown, and current volume equal to the initial
volume that was set. -/
theorem fresh_state_characterisation (v : Nat) :
    (initial_state.set_initial_volume v).kernel.candidates.length = 0 ∧
    (initial_state.set_initial_volume v).trust_level = navigation_trust_level.e_no_trust ∧
    (initial_state.set_initial_volume v).status = navigation_status.e_unknown ∧
    (initial_state.set_initial_volume v).volume = v :=
  ⟨rfl, rfl, rfl, rfl⟩

/-- C6: with trust level full_trust, target is a no-op: the heartbeat is true
and every component of the state is unchanged; in particular two successive
target calls without trajectory motion leave the state unchanged. -/
theorem target_full_trust_noop (env : nav_environment) (s : state)
    (h : s.trust_level = navigation_trust_level.e_full_trust) :
    target env s = (true, s) ∧ target env (target env s).2 = (true, s) := by
  have h1 : target env s = (true, s) := by simp [target, h]
  refine ⟨h1, ?_⟩
  rw [h1]
  exact h1

/-- Witness for C6 at a concrete full-trust state. -/
theorem target_full_trust_noop_witness :
    state_exit_like.trust_level = navigation_trust_level.e_full_trust ∧
    (target env_rescan state_exit_like = (true, state_exit_like) ∧
     target env_rescan (target env_rescan state_exit_like).2 = (true, state_exit_like)) :=
  ⟨rfl, target_full_trust_noop env_rescan state_exit_like rfl⟩

/-- C9: two full re-scans from the same volume and the same occupied-surface
marker, against the same trajectory/geometry snapshot, produce identical
ordered candidate sequences, regardless of every other component of the two
states (the intersection primitive is a function of its inputs, hence
deterministic). -/
theorem rescan_deterministic (env : nav_environment) (s t : state)
    (hs : s.trust_level = navigation_trust_level.e_no_trust)
    (ht : t.trust_level = navigation_trust_level.e_no_trust)
    (hv : s.volume = t.volume) (ho : s.on_object = t.on_object) :
    volume_scan env s.volume s.on_object = volume_scan env t.volume t.on_object ∧
    (update_kernel env s).kernel.candidates = (update_kernel env t).kernel.candidates := by
  have hscan : volume_scan env s.volume s.on_object = volume_scan env t.volume t.on_object := by
    rw [hv, ho]
  refine ⟨hscan, ?_⟩
  rw [update_kernel_no_trust env s hs, update_kernel_no_trust env t ht,
    set_next_candidates, set_next_candidates, hscan]

/-- Witness for C9: two states sharing only volume and occupied surface. -/
theorem rescan_deterministic_witness :
    state_switched.trust_level = navigation_trust_level.e_no_trust ∧
    state_switched_variant.trust_level = navigation_trust_level.e_no_trust ∧
    state_switched.volume = state_switched_variant.volume ∧
    state_switched.on_object = state_switched_variant.on_object ∧
    (volume_scan env_rescan state_switched.volume state_switched.on_object =
       volume_scan env_rescan state_switched_variant.volume state_switched_variant.on_object ∧
     (update_kernel env_rescan state_switched).kernel.candidates =
       (update_kernel env_rescan state_switched_variant).kernel.candidates) :=
  ⟨rfl, rfl, rfl, rfl,
    rescan_deterministic env_rescan state_switched state_switched_variant rfl rfl rfl rfl⟩

/-- C5 counterexample: a state whose kernel cursor is at the end but whose
trust level is full_trust: the next target call returns immediately and does
not re-scan, so the claim as stated (for every state with an exhausted kernel)
fails. -/
theorem exhaustion_rescan_counterexample :
    state_exit_like.kernel.exhausted = true ∧
    target env_rescan state_exit_like ≠
      status env_rescan
        { state_exit_like.clear_kernel with trust_level := navigation_trust_level.e_no_trust } := by
  decide

/-- C5 (amended): for a state with trust level below full_trust whose kernel
cursor has reached the end, the next target call clears the kernel, forces
no_trust, and performs the same full re-scan as a status call on that cleared
state, rather than returning stale data. -/
theorem exhaustion_forces_rescan (env : nav_environment) (s : state)
    (h1 : s.trust_level ≠ navigation_trust_level.e_full_trust)
    (h2 : s.kernel.exhausted = true) :
    target env s =
      status env { s.clear_kernel with trust_level := navigation_trust_level.e_no_trust } := by
  simp [target, status, h1, h2]

/-- Witness for C5 (amended) at a concrete exhausted state. -/
theorem exhaustion_forces_rescan_witness :
    state_stale.trust_level ≠ navigation_trust_level.e_full_trust ∧
    state_stale.kernel.exhausted = true ∧
    target env_rescan state_stale =
      status env_rescan
        { state_stale.clear_kernel with trust_level := navigation_trust_level.e_no_trust } :=
  ⟨by decide, by decide, exhaustion_forces_rescan env_rescan state_stale (by decide) (by decide)⟩


/-- C1: when a kernel update ends with status on_object and the candidate
under the cursor (the occupied surface) links to a valid next volume different
from the current one, the status call that performed the update switches the
current volume to that link, clears the kernel (cursor at end), and drops the
trust level to no_trust within that same call; a target call performing the
same update (trust below full, kernel not exhausted) does the same. -/
theorem volume_switch_on_object (env : nav_environment) (s : state) (c : candidate)
    (h1 : (update_kernel env s).status = navigation_status.e_on_object)
    (h2 : (update_kernel env s).current = some c)
    (h3 : c.link ≠ (update_kernel env s).volume)
    (h4 : c.link ≠ dindex_invalid) :
    ((status env s).2.volume = c.link ∧
     (status env s).2.kernel.candidates = [] ∧
     (status env s).2.kernel.exhausted = true ∧
     (status env s).2.trust_level = navigation_trust_level.e_no_trust) ∧
    (s.trust_level ≠ navigation_trust_level.e_full_trust → s.kernel.exhausted = false →
     ((target env s).2.volume = c.link ∧
      (target env s).2.kernel.candidates = [] ∧
      (target env s).2.kernel.exhausted = true ∧
      (target env s).2.trust_level = navigation_trust_level.e_no_trust)) := by
  have hne : (update_kernel env s).kernel.candidates ≠ [] := by
    intro hnil
    simp only [state.current, hnil] at h2
    simp at h2
  have hsw : check_volume_switch (update_kernel env s) =
      { state.clear_kernel { update_kernel env s with volume := c.link } with
        trust_level := navigation_trust_level.e_no_trust } := by
    simp only [check_volume_switch, h2]
    rw [if_pos ⟨h1, h3⟩, if_neg ?_]
    simpa [state.clear_kernel] using h4
  have hst : status env s = (true, check_volume_switch (update_kernel env s)) := by
    simp only [status, post_update, if_neg hne]
  constructor
  · rw [hst, hsw]
    exact ⟨rfl, rfl, rfl, rfl⟩
  · intro ht hx
    rw [target_eq_status env s ht hx, hst, hsw]
    exact ⟨rfl, rfl, rfl, rfl⟩

/-- Witness for C1: stepping onto the portal surface 5 of volume 3, which
links to volume 7. -/
theorem volume_switch_on_object_witness :
    (update_kernel env_portal state_towards).status = navigation_status.e_on_object ∧
    (update_kernel env_portal state_towards).current =
      some { index := 5, path := 0, inside := true, link := 7 } ∧
    ((status env_portal state_towards).2.volume = 7 ∧
     (status env_portal state_towards).2.kernel.candidates = [] ∧
     (status env_portal state_towards).2.kernel.exhausted = true ∧
     (status env_portal state_towards).2.trust_level = navigation_trust_level.e_no_trust) :=
  ⟨by decide, by decide,
    ((volume_switch_on_object env_portal state_towards
      { index := 5, path := 0, inside := true, link := 7 }
      (by decide) (by decide) (by decide) (by decide)).1)⟩

/-- C2: when a kernel update ends with status on_object and the candidate
under the cursor links to the exit sentinel, the status call that detects this
transitions to the terminal status on_target, sets the volume to the invalid
sentinel, forces full trust, and still returns heartbeat true; a target call
performing the same update does the same. -/
theorem exit_world_on_target (env : nav_environment) (s : state) (c : candidate)
    (h1 : (update_kernel env s).status = navigation_status.e_on_object)
    (h2 : (update_kernel env s).current = some c)
    (h3 : c.link = dindex_invalid)
    (h4 : (update_kernel env s).volume ≠ dindex_invalid) :
    ((status env s).1 = true ∧
     (status env s).2.status = navigation_status.e_on_target ∧
     (status env s).2.volume = dindex_invalid ∧
     (status env s).2.trust_level = navigation_trust_level.e_full_trust) ∧
    (s.trust_level ≠ navigation_trust_level.e_full_trust → s.kernel.exhausted = false →
     ((target env s).1 = true ∧
      (target env s).2.status = navigation_status.e_on_target ∧
      (target env s).2.volume = dindex_invalid ∧
      (target env s).2.trust_level = navigation_trust_level.e_full_trust)) := by
  have hne : (update_kernel env s).kernel.candidates ≠ [] := by
    intro hnil
    simp only [state.current, hnil] at h2
    simp at h2
  have hlk : c.link ≠ (update_kernel env s).volume := by
    rw [h3]
    exact fun hgot => h4 hgot.symm
  have hsw : check_volume_switch (update_kernel env s) =
      { { state.clear_kernel { update_kernel env s with volume := c.link } with
          trust_level := navigation_trust_level.e_no_trust } with
        status := navigation_status.e_on_target
        trust_level := navigation_trust_level.e_full_trust } := by
    simp only [check_volume_switch, h2]
    rw [if_pos ⟨h1, hlk⟩, if_pos ?_]
    simpa [state.clear_kernel] using h3
  have hst : status env s = (true, check_volume_switch (update_kernel env s)) := by
    simp only [status, post_update, if_neg hne]
  constructor
  · rw [hst, hsw]
    exact ⟨rfl, rfl, by simpa [state.clear_kernel] using h3, rfl⟩
  · intro ht hx
    rw [target_eq_status env s ht hx, hst, hsw]
    exact ⟨rfl, rfl, by simpa [state.clear_kernel] using h3, rfl⟩

/-- Witness for C2: stepping onto the portal surface 5 of volume 3, which
links out of the geometry world. -/
theorem exit_world_on_target_witness :
    (update_kernel env_exit state_towards).status = navigation_status.e_on_object ∧
    (update_kernel env_exit state_towards).current =
      some { index := 5, path := 0, inside := true, link := dindex_invalid } ∧
    ((status env_exit state_towards).1 = true ∧
     (status env_exit state_towards).2.status = navigation_status.e_on_target ∧
     (status env_exit state_towards).2.volume = dindex_invalid ∧
     (status env_exit state_towards).2.trust_level = navigation_trust_level.e_full_trust) :=
  ⟨by decide, by decide,
    ((exit_world_on_target env_exit state_towards
      { index := 5, path := 0, inside := true, link := dindex_invalid }
      (by decide) (by decide) (by decide) (by decide)).1)⟩


/-- C3: a high-trust kernel update that finds a valid candidate marks the state
on_object while keeping trust at high_trust when the candidate's path length is
within the on-object tolerance (and records it occupied), and otherwise marks
the state towards_object and raises trust to full_trust. -/
theorem high_trust_found_outcome (env : nav_environment) (s : state) (c : candidate)
    (ht : s.trust_level = navigation_trust_level.e_high_trust)
    (hf : (high_trust_scan env s.on_object (s.kernel.candidates.drop s.kernel.next)).found
        = some c) :
    (|c.path| < s.tolerance →
      (update_kernel env s).status = navigation_status.e_on_object ∧
      (update_kernel env s).trust_level = navigation_trust_level.e_high_trust ∧
      (update_kernel env s).on_object = c.index) ∧
    (¬ |c.path| < s.tolerance →
      (update_kernel env s).status = navigation_status.e_towards_object ∧
      (update_kernel env s).trust_level = navigation_trust_level.e_full_trust) := by
  rw [update_kernel_high_trust env s ht, hf]
  constructor
  · intro hin
    simp [apply_high, hin, ht]
  · intro hout
    simp [apply_high, hout]

/-- Witness for C3: the high-trust re-intersection of surface 5 finds it under
the trajectory (path 0, within tolerance). -/
theorem high_trust_found_outcome_witness :
    state_towards.trust_level = navigation_trust_level.e_high_trust ∧
    (high_trust_scan env_portal state_towards.on_object
        (state_towards.kernel.candidates.drop state_towards.kernel.next)).found =
      some { index := 5, path := 0, inside := true, link := 7 } ∧
    ((|({ index := 5, path := 0, inside := true, link := 7 } : candidate).path| <
        state_towards.tolerance →
      (update_kernel env_portal state_towards).status = navigation_status.e_on_object ∧
      (update_kernel env_portal state_towards).trust_level =
        navigation_trust_level.e_high_trust ∧
      (update_kernel env_portal state_towards).on_object = 5) ∧
     (¬ |({ index := 5, path := 0, inside := true, link := 7 } : candidate).path| <
        state_towards.tolerance →
      (update_kernel env_portal state_towards).status = navigation_status.e_towards_object ∧
      (update_kernel env_portal state_towards).trust_level =
        navigation_trust_level.e_full_trust)) :=
  ⟨rfl, by decide,
    high_trust_found_outcome env_portal state_towards
      { index := 5, path := 0, inside := true, link := 7 } rfl (by decide)⟩

/-- C4 counterexample: a no-trust kernel update whose scan survives (the portal
the trajectory sits on plus a module ahead) ends with trust high_trust, not
full_trust, because the nearest candidate lies within the on-object tolerance
and is skipped; this mirrors the unit test lines 147-162. -/
theorem no_trust_trust_counterexample :
    state_switched.trust_level = navigation_trust_level.e_no_trust ∧
    volume_scan env_rescan state_switched.volume state_switched.on_object ≠ [] ∧
    (update_kernel env_rescan state_switched).trust_level ≠
      navigation_trust_level.e_full_trust ∧
    (update_kernel env_rescan state_switched).trust_level =
      navigation_trust_level.e_high_trust := by
  decide

/-- C4 (amended): a kernel update at trust no_trust aborts (heartbeat false,
status abort) when no candidate survives the filter; when candidates survive,
the trust after sorting is full_trust if the nearest surviving candidate's
path length is at least the on-object tolerance, and high_trust if the nearest
survivor lies within the tolerance (it is skipped as the occupied surface). -/
theorem no_trust_update_trust (env : nav_environment) (s : state)
    (h : s.trust_level = navigation_trust_level.e_no_trust) :
    (volume_scan env s.volume s.on_object = [] →
      (status env s).1 = false ∧ (status env s).2.status = navigation_status.e_abort) ∧
    (∀ c, (List.insertionSort cand_le (volume_scan env s.volume s.on_object)).head? = some c →
      ((s.tolerance ≤ c.path →
         (update_kernel env s).trust_level = navigation_trust_level.e_full_trust) ∧
       (c.path < s.tolerance →
         (update_kernel env s).trust_level = navigation_trust_level.e_high_trust))) := by
  constructor
  · intro hemp
    simp only [status]
    rw [update_kernel_no_trust env s h, hemp]
    simp [set_next, post_update]
  · intro c hc
    rw [update_kernel_no_trust env s h]
    have hcs : volume_scan env s.volume s.on_object ≠ [] := by
      intro hemp
      rw [hemp] at hc
      simp [List.insertionSort] at hc
    have htr : (set_next s (volume_scan env s.volume s.on_object)).trust_level =
        if ((List.insertionSort cand_le (volume_scan env s.volume s.on_object)).findIdx
            fun d => decide (s.tolerance ≤ d.path)) = 0
        then navigation_trust_level.e_full_trust
        else navigation_trust_level.e_high_trust := by
      simp [set_next, hcs]
    obtain ⟨rest, hrest⟩ :
        ∃ rest, List.insertionSort cand_le (volume_scan env s.volume s.on_object) = c :: rest := by
      cases hs : List.insertionSort cand_le (volume_scan env s.volume s.on_object) with
      | nil => rw [hs] at hc; simp at hc
      | cons a l =>
        rw [hs] at hc
        simp only [List.head?_cons, Option.some.injEq] at hc
        exact ⟨l, by rw [hc]⟩
    constructor
    · intro hle
      rw [htr, hrest, List.findIdx_cons]
      simp [hle]
    · intro hlt
      rw [htr, hrest, List.findIdx_cons]
      have hnl : ¬ s.tolerance ≤ c.path := not_le.mpr hlt
      simp [hnl]

/-- Witness for C4 (amended) at the post-switch re-scan of volume 1. -/
theorem no_trust_update_trust_witness :
    state_switched.trust_level = navigation_trust_level.e_no_trust ∧
    (∀ c, (List.insertionSort cand_le
        (volume_scan env_rescan state_switched.volume state_switched.on_object)).head? =
          some c →
      ((state_switched.tolerance ≤ c.path →
         (update_kernel env_rescan state_switched).trust_level =
           navigation_trust_level.e_full_trust) ∧
       (c.path < state_switched.tolerance →
         (update_kernel env_rescan state_switched).trust_level =
           navigation_trust_level.e_high_trust))) :=
  ⟨rfl, (no_trust_update_trust env_rescan state_switched rfl).2⟩


theorem findIdx_before {α : Type} {p : α → Bool} :
    ∀ (xs : List α) (i : Nat), i < xs.findIdx p → ∀ c, xs[i]? = some c → p c = false := by
  intro xs
  induction xs with
  | nil =>
    intro i hi c hc
    simp at hc
  | cons x xs ih =>
    intro i hi c hc
    rw [List.findIdx_cons] at hi
    cases hpx : p x
    · rw [hpx] at hi
      simp only [cond_false] at hi
      cases i with
      | zero =>
        simp only [List.getElem?_cons_zero, Option.some.injEq] at hc
        rw [← hc]
        exact hpx
      | succ j =>
        simp only [List.getElem?_cons_succ] at hc
        exact ih j (Nat.lt_of_succ_lt_succ hi) c hc
    · rw [hpx] at hi
      simp at hi

theorem set_next_kernel_eq (s : state) (cs : List candidate) (hcs : cs ≠ []) :
    (set_next s cs).kernel =
      { candidates := List.insertionSort cand_le cs
        next := (List.insertionSort cand_le cs).findIdx fun c => decide (s.tolerance ≤ c.path) } := by
  simp [set_next, hcs]

theorem set_next_on_object_eq (s : state) (cs : List candidate) (hcs : cs ≠ []) :
    (set_next s cs).on_object =
      if ((List.insertionSort cand_le cs).findIdx fun c => decide (s.tolerance ≤ c.path)) = 0
      then dindex_invalid
      else ((List.insertionSort cand_le cs).getD
        (((List.insertionSort cand_le cs).findIdx fun c => decide (s.tolerance ≤ c.path)) - 1)
        cand_default).index := by
  simp [set_next, hcs]

theorem set_next_skips_coincident (s : state) (cs : List candidate) :
    (∀ i c, i < (set_next s cs).kernel.next →
      (set_next s cs).kernel.candidates[i]? = some c → c.path < s.tolerance) ∧
    (∀ c, (set_next s cs).kernel.candidates[(set_next s cs).kernel.next]? = some c →
      s.tolerance ≤ c.path) ∧
    (0 < (set_next s cs).kernel.next →
      (set_next s cs).on_object =
        ((set_next s cs).kernel.candidates.getD ((set_next s cs).kernel.next - 1)
          cand_default).index) := by
  by_cases hcs : cs = []
  · refine ⟨?_, ?_, ?_⟩ <;> simp [set_next, hcs]
  · have hker := set_next_kernel_eq s cs hcs
    refine ⟨?_, ?_, ?_⟩
    · intro i c hi hc
      rw [hker] at hi hc
      have hp := findIdx_before (List.insertionSort cand_le cs) i hi c hc
      simp only [decide_eq_false_iff_not, not_le] at hp
      exact hp
    · intro c hc
      rw [hker] at hc
      have hp := List.findIdx_of_getElem?_eq_some hc
      simpa using hp
    · intro hpos
      rw [hker] at hpos ⊢
      rw [set_next_on_object_eq s cs hcs]
      have hne : ¬ ((List.insertionSort cand_le cs).findIdx
          fun c => decide (s.tolerance ≤ c.path)) = 0 :=
        Nat.pos_iff_ne_zero.mp hpos
      rw [if_neg hne]

/-- C7: after a bulk (re-)population of the kernel (a no_trust or fair_trust
update), the cursor points at the first candidate whose path length reaches the
on-object tolerance: every candidate before the cursor is within the tolerance
(coincident with the trajectory), the cursor candidate is not, and when a
candidate was skipped the last of them is recorded as the occupied surface. -/
theorem bulk_population_cursor (env : nav_environment) (s : state)
    (h : s.trust_level = navigation_trust_level.e_no_trust ∨
         s.trust_level = navigation_trust_level.e_fair_trust) :
    (∀ i c, i < (update_kernel env s).kernel.next →
      (update_kernel env s).kernel.candidates[i]? = some c → c.path < s.tolerance) ∧
    (∀ c, (update_kernel env s).kernel.candidates[(update_kernel env s).kernel.next]? = some c →
      s.tolerance ≤ c.path) ∧
    (0 < (update_kernel env s).kernel.next →
      (update_kernel env s).on_object =
        ((update_kernel env s).kernel.candidates.getD
          ((update_kernel env s).kernel.next - 1) cand_default).index) := by
  rcases h with h | h
  · rw [update_kernel_no_trust env s h]
    exact set_next_skips_coincident s _
  · rw [update_kernel_fair_trust env s h]
    exact set_next_skips_coincident s _

/-- Witness for C7 at the post-switch re-scan of volume 1: the portal the
trajectory sits on is skipped. -/
theorem bulk_population_cursor_witness :
    (state_switched.trust_level = navigation_trust_level.e_no_trust ∨
     state_switched.trust_level = navigation_trust_level.e_fair_trust) ∧
    ((∀ i c, i < (update_kernel env_rescan state_switched).kernel.next →
      (update_kernel env_rescan state_switched).kernel.candidates[i]? = some c →
        c.path < state_switched.tolerance) ∧
    (∀ c, (update_kernel env_rescan state_switched).kernel.candidates[
        (update_kernel env_rescan state_switched).kernel.next]? = some c →
      state_switched.tolerance ≤ c.path) ∧
    (0 < (update_kernel env_rescan state_switched).kernel.next →
      (update_kernel env_rescan state_switched).on_object =
        ((update_kernel env_rescan state_switched).kernel.candidates.getD
          ((update_kernel env_rescan state_switched).kernel.next - 1) cand_default).index)) :=
  ⟨Or.inl rfl, bulk_population_cursor env_rescan state_switched (Or.inl rfl)⟩


theorem volume_scan_member (env : nav_environment) (v occ : Nat) :
    ∀ c ∈ volume_scan env v occ, env.overstep_tolerance ≤ c.path ∧ c.inside = true := by
  intro c hc
  simp only [volume_scan, List.mem_filterMap] at hc
  obtain ⟨a, ha, hfa⟩ := hc
  by_cases hcond : env.overstep_tolerance ≤ (env.intersect a).path ∧
      (env.intersect a).inside = true ∧ a ≠ occ
  · rw [if_pos hcond] at hfa
    cases hfa
    exact ⟨hcond.1, hcond.2.1⟩
  · rw [if_neg hcond] at hfa
    cases hfa

theorem set_next_status_of_ne (s : state) (cs : List candidate) (hcs : cs ≠ []) :
    (set_next s cs).status = navigation_status.e_towards_object := by
  simp [set_next, hcs]

theorem check_volume_switch_of_not_on (s : state)
    (h : s.status ≠ navigation_status.e_on_object) :
    check_volume_switch s = s := by
  cases hc : s.current with
  | none => simp [check_volume_switch, hc]
  | some c => simp [check_volume_switch, hc, h]

theorem rescan_establishes_invariant (env : nav_environment) (s : state) :
    kernel_invariant env.overstep_tolerance
      (set_next s (volume_scan env s.volume s.on_object)) := by
  by_cases hcs : volume_scan env s.volume s.on_object = []
  · constructor
    · intro c hc
      rw [set_next_candidates, if_pos hcs] at hc
      simp at hc
    · rw [hcs]
      simp [set_next]
  · constructor
    · intro c hc
      rw [set_next_kernel_eq s _ hcs] at hc
      simp only [List.mem_insertionSort] at hc
      exact volume_scan_member env s.volume s.on_object c hc
    · have hs := List.sorted_insertionSort cand_le (volume_scan env s.volume s.on_object)
      rw [set_next_kernel_eq s _ hcs]
      exact List.Pairwise.sublist (List.drop_sublist _ _) hs

theorem status_no_trust_invariant (env : nav_environment) (s : state)
    (h : s.trust_level = navigation_trust_level.e_no_trust) :
    kernel_invariant env.overstep_tolerance (status env s).2 := by
  have hu := update_kernel_no_trust env s h
  have hinv := rescan_establishes_invariant env s
  simp only [status, hu]
  by_cases hemp : (set_next s (volume_scan env s.volume s.on_object)).kernel.candidates = []
  · simp only [post_update, if_pos hemp]
    exact hinv
  · simp only [post_update, if_neg hemp]
    have hcs : volume_scan env s.volume s.on_object ≠ [] := by
      intro he
      rw [set_next_candidates, if_pos he] at hemp
      exact hemp rfl
    rw [check_volume_switch_of_not_on _ ?_]
    · exact hinv
    · rw [set_next_status_of_ne s _ hcs]
      decide

/-- C8 counterexample: a fair-trust target call re-intersects the stored
candidate of surface 40 as outside and keeps it in the kernel without
re-filtering, so the kernel invariant (all candidates inside and beyond the
overstep tolerance) is not preserved by every status/target operation. -/
theorem kernel_invariant_counterexample :
    kernel_invariant env_outside.overstep_tolerance state_fair ∧
    ¬ kernel_invariant env_outside.overstep_tolerance (status env_outside state_fair).2 := by
  constructor
  · refine ⟨?_, ?_⟩ <;> decide
  · intro hinv
    have := hinv.1 { index := 40, path := 5, inside := false, link := 1 } (by decide)
    exact absurd this.2 (by decide)

/-- C8 (amended): every status or target call performed at trust level
no_trust (a bulk repopulation) establishes the kernel invariant: each stored
candidate has path length at least the overstep tolerance and classification
inside, and the entries at or after the cursor are sorted ascending by path
length with ties broken by surface identifier; fair_trust and high_trust
updates re-intersect in place without re-filtering and may break it. -/
theorem no_trust_call_establishes_invariant (env : nav_environment) (s : state)
    (h : s.trust_level = navigation_trust_level.e_no_trust) :
    kernel_invariant env.overstep_tolerance (status env s).2 ∧
    kernel_invariant env.overstep_tolerance (target env s).2 := by
  refine ⟨status_no_trust_invariant env s h, ?_⟩
  have hnf : s.trust_level ≠ navigation_trust_level.e_full_trust := by
    rw [h]
    decide
  simp only [target, if_neg hnf]
  by_cases hex : s.kernel.exhausted = true
  · simp only [hex, if_true]
    exact status_no_trust_invariant env _ rfl
  · have hex2 : s.kernel.exhausted = false := by
      cases hb : s.kernel.exhausted
      · rfl
      · exact absurd hb hex
    simp only [hex2, Bool.false_eq_true, if_false]
    exact status_no_trust_invariant env s h

/-- Witness for C8 (amended) at the post-switch re-scan of volume 1. -/
theorem no_trust_call_establishes_invariant_witness :
    state_switched.trust_level = navigation_trust_level.e_no_trust ∧
    (kernel_invariant env_rescan.overstep_tolerance (status env_rescan state_switched).2 ∧
     kernel_invariant env_rescan.overstep_tolerance (target env_rescan state_switched).2) :=
  ⟨rfl, no_trust_call_establishes_invariant env_rescan state_switched rfl⟩

end detray.single_type_navigator
